import Mathlib

/-!
# TalkerApp: the chat room of `src/App.js`

A shallow embedding of the React components `App`, `ChatRoom` and `ChatMessage`:
JavaScript values and plain objects, the snapshot listener that rebuilds the
message list, the composer (`formValue`, `sendMessage`, the submit button), the
rendering of one message and the choice of the view shown by `App`.
-/

namespace TalkerApp

/-! ## JavaScript values and plain objects -/

/-- The JavaScript values that message fields can hold. Objects other than the
`serverTimestamp()` sentinel are represented by their reference. -/
inductive JSValue where
  | undefined
  | null
  | bool (b : Bool)
  | num (n : Int)
  | nan
  | str (s : String)
  | object (ref : Nat)
  | serverTimestamp
  deriving DecidableEq, Repr

/-- JavaScript truthiness (`ToBoolean`), as used by `!x`, `x || y`, `x ? a : b`. -/
def truthy : JSValue → Bool
  | .undefined => false
  | .null => false
  | .bool b => b
  | .num n => n != 0
  | .nan => false
  | .str s => s != ""
  | .object _ => true
  | .serverTimestamp => true

/-- The operator `===`: same type and same value, `NaN` being different from itself. -/
def strictEquals : JSValue → JSValue → Bool
  | .nan, _ => false
  | _, .nan => false
  | a, b => decide (a = b)

/-- The operator `a || b`: `a` when it is truthy, else `b`. -/
def jsOr (a b : JSValue) : JSValue :=
  if truthy a then a else b

/-- A plain JavaScript object: its own properties in insertion order. -/
abbrev JSObject := List (String × JSValue)

/-- Property read `o[k]`: `undefined` when the object has no such property. -/
def JSObject.get (o : JSObject) (k : String) : JSValue :=
  match o.lookup k with
  | some v => v
  | none => .undefined

/-- Property write `o[k] = v`: an existing property keeps its place and takes the
new value, a new property is added at the end. -/
def JSObject.set : JSObject → String → JSValue → JSObject
  | [], k, v => [(k, v)]
  | (k', v') :: rest, k, v =>
    if k' = k then (k', v) :: rest else (k', v') :: JSObject.set rest k v

/-- Object spread `{ ...base, ...src }` onto an object under construction: each
own property of `src` is written to `base` in order. -/
def JSObject.spread (base src : JSObject) : JSObject :=
  src.foldl (fun o kv => JSObject.set o kv.1 kv.2) base

/-- The names of the properties of an object. -/
def JSObject.keys (o : JSObject) : List String :=
  o.map Prod.fst

/-- `Array.prototype.slice()` without arguments: a shallow copy of the array. -/
def slice {α : Type} (xs : List α) : List α :=
  xs

/-! ## The session and the remote log -/

/-- The signed-in user, `auth.currentUser`: Firebase gives `uid` as a string and
`photoURL` as a string or `null`. -/
structure User where
  uid : String
  photoURL : Option String
  deriving DecidableEq, Repr

/-- The JavaScript value of `photoURL` of a user. -/
def User.photoURLValue (u : User) : JSValue :=
  match u.photoURL with
  | some p => .str p
  | none => .null

/-- A document of a snapshot: `doc.id` and the object returned by `doc.data()`. -/
structure Doc where
  id : String
  data : JSObject
  deriving DecidableEq, Repr

/-- The direction of an `orderBy` clause. -/
inductive Direction where
  | asc
  | desc
  deriving DecidableEq, Repr

/-- A query on a collection: `query(collection(firestore, c), orderBy(f, d), limit(n))`. -/
structure Query where
  collection : String
  orderField : String
  direction : Direction
  limit : Nat
  deriving DecidableEq, Repr

/-- The collection `messagesRef` of `ChatRoom`. -/
def messagesRef : String := "messages"

/-- The window size of `ChatRoom`: the argument of `limit(25)`. -/
def WINDOW_SIZE : Nat := 25

/-- The query `q` of `ChatRoom`:
`query(messagesRef, orderBy('createdAt', 'desc'), limit(25))`. -/
def q : Query :=
  { collection := messagesRef, orderField := "createdAt", direction := .desc, limit := 25 }

/-- The order in which a query lists two documents with the given order keys. -/
def Direction.before (d : Direction) (key : Doc → Nat) (a b : Doc) : Prop :=
  match d with
  | .asc => key a ≤ key b
  | .desc => key b ≤ key a

instance (d : Direction) (key : Doc → Nat) : DecidableRel (d.before key) := by
  intro a b
  cases d <;> simp only [Direction.before] <;> infer_instance

instance (d : Direction) (key : Doc → Nat) : IsTotal Doc (d.before key) :=
  ⟨fun a b => by cases d <;> simp only [Direction.before] <;> omega⟩

instance (d : Direction) (key : Doc → Nat) : IsTrans Doc (d.before key) :=
  ⟨fun a b c hab hbc => by cases d <;> simp only [Direction.before] at * <;> omega⟩

/-- Modelled from the spec: the ordered log service (Firestore) is an external
collaborator whose code is not in the repository. On a subscription it delivers
"the top `windowSize` entries ordered by `orderKey` descending", ties keeping the
order of the log: the documents are sorted stably on the order key of the query
field and the first `limit` of them are delivered. `key f d` is the rank the log
gives document `d` for field `f`. -/
def runQuery (key : String → Doc → Nat) (qry : Query) (log : List Doc) : List Doc :=
  (log.insertionSort (qry.direction.before (key qry.orderField))).take qry.limit

/-! ## ChatRoom -/

/-- The state of `ChatRoom`: `messages` (`useState([])`) and `formValue`
(`useState('')`). -/
structure ChatRoomState where
  messages : List JSObject
  formValue : String
  deriving DecidableEq, Repr

/-- The state of a freshly mounted `ChatRoom`. -/
def ChatRoomState.initial : ChatRoomState :=
  { messages := [], formValue := "" }

/-- The message built from a document: `{ id: doc.id, ...doc.data() }`. -/
def buildMessage (doc : Doc) : JSObject :=
  JSObject.spread [("id", .str doc.id)] doc.data

/-- The snapshot listener:
`messagesData = snapshot.docs.map(doc => ({ id: doc.id, ...doc.data() }))`
followed by `setMessages(messagesData)`. -/
def onSnapshot (s : ChatRoomState) (docs : List Doc) : ChatRoomState :=
  { s with messages := docs.map buildMessage }

/-- Snapshot deliveries applied in delivery order. -/
def applyDeliveries (s : ChatRoomState) (deliveries : List (List Doc)) : ChatRoomState :=
  deliveries.foldl onSnapshot s

/-- The messages `ChatRoom` renders, in order: `messages.slice().reverse()`, one
`ChatMessage` each. An array is truthy, so `messages && ...` is the list. -/
def renderedMessages (s : ChatRoomState) : List JSObject :=
  (slice s.messages).reverse

/-- The `onChange` handler of the input: `setFormValue(e.target.value)`. -/
def updateDraft (s : ChatRoomState) (text : String) : ChatRoomState :=
  { s with formValue := text }

/-- The outcome of the promise returned by `addDoc`. -/
inductive AddDocResult where
  | ok (docId : String)
  | error (e : String)
  deriving DecidableEq, Repr

/-- What a submit did: the error it threw if any, the state it left, the calls
of `addDoc` it made (collection and record) and whether it called
`dummy.current.scrollIntoView`. -/
structure SendOutcome where
  error : Option String
  state : ChatRoomState
  addDocCalls : List (String × JSObject)
  scrolled : Bool
  deriving DecidableEq, Repr

/-- The record `sendMessage` passes to `addDoc`:
`{ text: formValue, createdAt: serverTimestamp(), uid, photoURL }`. -/
def messageRecord (formValue : String) (u : User) : JSObject :=
  [("text", .str formValue), ("createdAt", .serverTimestamp), ("uid", .str u.uid),
   ("photoURL", u.photoURLValue)]

/-- The handler `sendMessage`. Destructuring `auth.currentUser` throws a
`TypeError` when nobody is signed in; a rejected `addDoc` ends the handler before
`setFormValue('')` and `scrollIntoView`. -/
def sendMessage (currentUser : Option User) (outcome : AddDocResult) (s : ChatRoomState) :
    SendOutcome :=
  match currentUser with
  | none => { error := some "TypeError", state := s, addDocCalls := [], scrolled := false }
  | some u =>
    let record := messageRecord s.formValue u
    match outcome with
    | .error e =>
      { error := some e, state := s, addDocCalls := [(messagesRef, record)], scrolled := false }
    | .ok _ =>
      { error := none, state := { s with formValue := "" },
        addDocCalls := [(messagesRef, record)], scrolled := true }

/-- The attribute `disabled={!formValue}` of the submit button. -/
def submitDisabled (s : ChatRoomState) : Bool :=
  !(truthy (.str s.formValue))

/-- Submitting the form `<form onSubmit={sendMessage}>` through its submit button:
a disabled button submits nothing, an enabled one runs `sendMessage`. -/
def submit (currentUser : Option User) (outcome : AddDocResult) (s : ChatRoomState) :
    SendOutcome :=
  if submitDisabled s then
    { error := none, state := s, addDocCalls := [], scrolled := false }
  else
    sendMessage currentUser outcome s

/-- What happens to a mounted `ChatRoom`: the log changes and the subscription
delivers the window of the query, the user types, the user submits. -/
inductive Event where
  | logChanged (log : List Doc)
  | change (text : String)
  | submit (outcome : AddDocResult)
  deriving DecidableEq, Repr

/-- One event applied to the state of `ChatRoom`. -/
def step (key : String → Doc → Nat) (currentUser : Option User) (s : ChatRoomState) :
    Event → ChatRoomState
  | .logChanged log => onSnapshot s (runQuery key q log)
  | .change text => updateDraft s text
  | .submit outcome => (submit currentUser outcome s).state

/-- The state of `ChatRoom` after a sequence of events, from the initial state. -/
def run (key : String → Doc → Nat) (currentUser : Option User) (events : List Event) :
    ChatRoomState :=
  events.foldl (step key currentUser) ChatRoomState.initial

/-! ## ChatMessage -/

/-- The default avatar of `ChatMessage`. -/
def defaultAvatar : String := "https://api.adorable.io/avatars/23/abott@adorable.png"

/-- The class of a message:
`uid === auth.currentUser.uid ? 'sent' : 'received'`. Reading `uid` of a `null`
current user throws, hence `none`. -/
def messageClass (currentUser : Option User) (message : JSObject) : Option String :=
  match currentUser with
  | none => none
  | some u =>
    if strictEquals (message.get "uid") (.str u.uid) then some "sent" else some "received"

/-- The `src` of the avatar image: `photoURL || '<default avatar>'`. -/
def avatarSrc (message : JSObject) : JSValue :=
  jsOr (message.get "photoURL") (.str defaultAvatar)

/-! ## App -/

/-- The views `App` can put in its `<section>`. -/
inductive View where
  | profile (user : JSObject)
  | chatRoom
  | signIn
  deriving DecidableEq, Repr

/-- The content of the `<section>` of `App`:
`selectedUser ? <Profile/> : (user ? <ChatRoom/> : <SignIn/>)`. A selected user
is an object `{ uid, photoURL }`, truthy whenever it is not `null`. -/
def appSection (user : Option User) (selectedUser : Option JSObject) : View :=
  match selectedUser with
  | some sel => View.profile sel
  | none =>
    match user with
    | some _ => View.chatRoom
    | none => View.signIn

/-- Whether a view is the profile view. -/
def View.isProfile : View → Bool
  | .profile _ => true
  | _ => false

/-- Whether a view is the chat view. -/
def View.isChatRoom : View → Bool
  | .chatRoom => true
  | _ => false

/-- Whether a view is the sign-in view. -/
def View.isSignIn : View → Bool
  | .signIn => true
  | _ => false

/-! ## Sample data -/

/-- The window of the end-to-end scenario: user `u1` said "hi", the log gave the
document the id `m100`. -/
def scenarioDocs : List Doc :=
  [{ id := "m100",
     data := [("text", .str "hi"), ("createdAt", .object 1), ("uid", .str "u1"),
              ("photoURL", .null)] }]

/-- A window of three documents, newest first. -/
def sampleDocs : List Doc :=
  [{ id := "m3", data := [("text", .str "c"), ("uid", .str "u1")] },
   { id := "m2", data := [("text", .str "b"), ("uid", .str "u2")] },
   { id := "m1", data := [("text", .str "a"), ("uid", .str "u1")] }]

/-- User A of the end-to-end scenario. -/
def userA : User := { uid := "u1", photoURL := none }

/-- User B of the end-to-end scenario. -/
def userB : User := { uid := "u2", photoURL := some "https://example.org/b.png" }

/-- An order key for sample logs: the number held by the field, 0 without one. -/
def sampleKey (field : String) (d : Doc) : Nat :=
  match JSObject.get d.data field with
  | .num n => n.toNat
  | _ => 0

/-- A sample log of 26 documents, written at times 100 to 125, oldest first. -/
def sampleLog : List Doc :=
  (List.range 26).map fun i =>
    { id := String.mk (List.replicate (i + 1) 'm'),
      data := [("text", .str "x"), ("createdAt", .num (100 + i))] }

/-- The oldest document of the sample log. -/
def sampleOldest : Doc :=
  { id := "m", data := [("text", .str "x"), ("createdAt", .num 100)] }

/-! ## Plain objects: reading after writing -/

theorem JSObject.get_set_same (o : JSObject) (k : String) (v : JSValue) :
    JSObject.get (JSObject.set o k v) k = v := by
  induction o with
  | nil => simp [JSObject.set, JSObject.get, List.lookup]
  | cons kv rest ih =>
    obtain ⟨k', v'⟩ := kv
    by_cases h : k' = k
    · subst h
      simp [JSObject.set, JSObject.get, List.lookup]
    · have h2 : (k == k') = false := by
        simpa using fun e : k = k' => h e.symm
      simp only [JSObject.set, h, if_false]
      simp only [JSObject.get, List.lookup, h2] at ih ⊢
      exact ih

theorem JSObject.get_set_other (o : JSObject) (k k0 : String) (v : JSValue) (h : k ≠ k0) :
    JSObject.get (JSObject.set o k0 v) k = JSObject.get o k := by
  induction o with
  | nil =>
    have h2 : (k == k0) = false := by simpa using h
    simp [JSObject.set, JSObject.get, List.lookup, h2]
  | cons kv rest ih =>
    obtain ⟨k', v'⟩ := kv
    by_cases h1 : k' = k0
    · subst h1
      have h2 : (k == k') = false := by simpa using h
      simp [JSObject.set, JSObject.get, List.lookup, h2]
    · simp only [JSObject.set, h1, if_false]
      by_cases h3 : k = k'
      · subst h3
        simp [JSObject.get, List.lookup]
      · have h4 : (k == k') = false := by simpa using h3
        simp only [JSObject.get, List.lookup, h4] at ih ⊢
        exact ih

theorem JSObject.get_of_not_mem_keys (o : JSObject) (k : String) (h : k ∉ JSObject.keys o) :
    JSObject.get o k = .undefined := by
  induction o with
  | nil => simp [JSObject.get, List.lookup]
  | cons kv rest ih =>
    obtain ⟨k', v'⟩ := kv
    simp only [JSObject.keys, List.map_cons, List.mem_cons, not_or] at h
    have h4 : (k == k') = false := by simpa using h.1
    have ih2 := ih h.2
    simp only [JSObject.get, List.lookup, h4] at ih2 ⊢
    exact ih2

/-- Spreading an object with distinct property names: a property of the source
wins, any other property keeps the value it had. -/
theorem JSObject.get_spread (src : JSObject) :
    ∀ (base : JSObject) (k : String), (JSObject.keys src).Nodup →
      JSObject.get (JSObject.spread base src) k
        = if k ∈ JSObject.keys src then JSObject.get src k else JSObject.get base k := by
  induction src with
  | nil => intro base k _; simp [JSObject.spread, JSObject.keys]
  | cons kv rest ih =>
    intro base k hnd
    obtain ⟨k0, v0⟩ := kv
    simp only [JSObject.keys, List.map_cons, List.nodup_cons] at hnd
    have hstep : JSObject.spread base ((k0, v0) :: rest)
        = JSObject.spread (JSObject.set base k0 v0) rest := by
      simp [JSObject.spread]
    rw [hstep, ih (JSObject.set base k0 v0) k hnd.2]
    by_cases hk : k ∈ JSObject.keys rest
    · have hne : k ≠ k0 := fun e => hnd.1 (e ▸ hk)
      have h4 : (k == k0) = false := by simpa using hne
      have hmem : k ∈ JSObject.keys ((k0, v0) :: rest) := by
        simp [JSObject.keys] at hk ⊢
        exact Or.inr hk
      simp only [hk, hmem, if_true]
      simp only [JSObject.get, List.lookup, h4]
    · simp only [hk, if_false]
      by_cases hk0 : k = k0
      · subst hk0
        have hmem : k ∈ JSObject.keys ((k, v0) :: rest) := by simp [JSObject.keys]
        simp only [hmem, if_true, JSObject.get_set_same]
        simp [JSObject.get, List.lookup]
      · have hmem : k ∉ JSObject.keys ((k0, v0) :: rest) := by
          simp only [JSObject.keys, List.map_cons, List.mem_cons, not_or]
          exact ⟨hk0, hk⟩
        simp only [hmem, if_false]
        exact JSObject.get_set_other base k k0 v0 hk0

/-- A field of a built message other than `id` is the field of the document data. -/
theorem buildMessage_get_other (doc : Doc) (k : String) (hk : k ≠ "id")
    (hnd : (JSObject.keys doc.data).Nodup) :
    JSObject.get (buildMessage doc) k = JSObject.get doc.data k := by
  unfold buildMessage
  rw [JSObject.get_spread doc.data _ k hnd]
  by_cases hmem : k ∈ JSObject.keys doc.data
  · simp [hmem]
  · have h4 : (k == "id") = false := by simpa using hk
    simp only [hmem, if_false, JSObject.get_of_not_mem_keys doc.data k hmem]
    simp [JSObject.get, List.lookup, h4]

/-- The `id` of a built message is `doc.id` when the data has no field `id`, and
the data field `id` when it has one. -/
theorem buildMessage_get_id (doc : Doc) (hnd : (JSObject.keys doc.data).Nodup) :
    JSObject.get (buildMessage doc) "id"
      = if "id" ∈ JSObject.keys doc.data then JSObject.get doc.data "id" else .str doc.id := by
  unfold buildMessage
  rw [JSObject.get_spread doc.data _ "id" hnd]
  by_cases hmem : "id" ∈ JSObject.keys doc.data
  · simp [hmem]
  · simp [hmem, JSObject.get, List.lookup]

/-! ## The window delivered by the log -/

theorem runQuery_length_le (key : String → Doc → Nat) (qry : Query) (log : List Doc) :
    (runQuery key qry log).length ≤ qry.limit := by
  unfold runQuery
  exact List.length_take_le _ _

/-- With one document more than the limit and distinct order keys, a descending
query leaves out the document with the smallest key. -/
theorem runQuery_desc_drops_oldest (key : String → Doc → Nat) (qry : Query) (log : List Doc)
    (d : Doc) (hdir : qry.direction = .desc) (hlen : log.length = qry.limit + 1)
    (hnd : (log.map (key qry.orderField)).Nodup)
    (hold : ∀ e ∈ log, key qry.orderField d ≤ key qry.orderField e) :
    d ∉ runQuery key qry log := by
  intro hmem
  unfold runQuery at hmem
  set r := qry.direction.before (key qry.orderField) with hr
  set sorted := log.insertionSort r with hs
  have hperm : sorted.Perm log := List.perm_insertionSort r log
  have hsorted : sorted.Sorted r := List.sorted_insertionSort r log
  have hslen : sorted.length = qry.limit + 1 := by rw [hperm.length_eq, hlen]
  have hsplit : sorted.take qry.limit ++ sorted.drop qry.limit = sorted :=
    List.take_append_drop _ _
  have hdroplen : (sorted.drop qry.limit).length = 1 := by
    rw [List.length_drop, hslen]; omega
  obtain ⟨e, he⟩ := List.length_eq_one.mp hdroplen
  rw [he] at hsplit
  have hsorted2 : (sorted.take qry.limit ++ [e]).Sorted r := by rw [hsplit]; exact hsorted
  have hde : r d e := by
    have := (List.pairwise_append.mp hsorted2).2.2 d hmem e (List.mem_singleton_self e)
    exact this
  have he_log : e ∈ log := by
    apply hperm.subset
    rw [← hsplit]
    simp
  have hkey : key qry.orderField d = key qry.orderField e := by
    have h1 := hold e he_log
    rw [hr, hdir] at hde
    simp only [Direction.before] at hde
    omega
  have hnd2 : ((sorted.take qry.limit ++ [e]).map (key qry.orderField)).Nodup := by
    rw [hsplit]
    exact (hperm.map _).nodup_iff.mpr hnd
  rw [List.map_append, List.nodup_append] at hnd2
  have hdisj := hnd2.2.2
  have h1 : key qry.orderField d ∈ (sorted.take qry.limit).map (key qry.orderField) :=
    List.mem_map_of_mem _ hmem
  have h2 : key qry.orderField d ∈ [e].map (key qry.orderField) := by
    rw [hkey]; simp
  exact hdisj h1 h2

theorem step_messages_length (key : String → Doc → Nat) (currentUser : Option User)
    (s : ChatRoomState) (ev : Event) (h : s.messages.length ≤ WINDOW_SIZE) :
    (step key currentUser s ev).messages.length ≤ WINDOW_SIZE := by
  cases ev with
  | logChanged log =>
    simp only [step, onSnapshot, List.length_map]
    exact runQuery_length_le key q log
  | change text => simpa [step, updateDraft] using h
  | submit outcome =>
    simp only [step, submit, sendMessage]
    split
    · exact h
    · cases currentUser <;> cases outcome <;> exact h

theorem foldl_step_messages_length (key : String → Doc → Nat) (currentUser : Option User)
    (events : List Event) :
    ∀ s : ChatRoomState, s.messages.length ≤ WINDOW_SIZE →
      (events.foldl (step key currentUser) s).messages.length ≤ WINDOW_SIZE := by
  induction events with
  | nil => intro s h; exact h
  | cons ev rest ih =>
    intro s h
    exact ih _ (step_messages_length key currentUser s ev h)

theorem strictEquals_str (v : JSValue) (c : String) :
    strictEquals v (.str c) = true ↔ v = .str c := by
  cases v <;> simp [strictEquals]

/-- The handler `sendMessage` does not look at `formValue`: run with an empty one
and a signed-in user it passes a record with the empty text to `addDoc`. An empty
draft is kept from the log by the disabled submit button alone. -/
theorem sendMessage_does_not_check_draft (u : User) (outcome : AddDocResult)
    (s : ChatRoomState) (h : s.formValue = "") :
    (sendMessage (some u) outcome s).addDocCalls = [(messagesRef, messageRecord "" u)] := by
  cases outcome <;> simp [sendMessage, h]

theorem applyDeliveries_append (s : ChatRoomState) (ds : List (List Doc)) (d : List Doc) :
    applyDeliveries s (ds ++ [d]) = onSnapshot (applyDeliveries s ds) d := by
  simp [applyDeliveries, List.foldl_append]

/-! ## The claims -/

/-- C1: whatever window of at most 25 documents the snapshot listener delivers
newest first, the sequence `ChatRoom` renders is the reverse of the stored window:
the same length, the `i`-th rendered message being the message at position
`length - 1 - i` of the window (built from the document at that position), and the
rendered sequence a permutation of the window. -/
theorem rendered_is_reverse_of_window (s : ChatRoomState) (docs : List Doc)
    (hlen : docs.length ≤ WINDOW_SIZE) :
    (onSnapshot s docs).messages = docs.map buildMessage ∧
    renderedMessages (onSnapshot s docs) = (onSnapshot s docs).messages.reverse ∧
    (renderedMessages (onSnapshot s docs)).length = (onSnapshot s docs).messages.length ∧
    (renderedMessages (onSnapshot s docs)).length = docs.length ∧
    (∀ i, i < docs.length →
      (renderedMessages (onSnapshot s docs))[i]?
          = (onSnapshot s docs).messages[(onSnapshot s docs).messages.length - 1 - i]? ∧
      (renderedMessages (onSnapshot s docs))[i]?
          = (docs[docs.length - 1 - i]?).map buildMessage ∧
      ((renderedMessages (onSnapshot s docs))[i]?).isSome = true) ∧
    (renderedMessages (onSnapshot s docs)).Perm (onSnapshot s docs).messages := by
  have _ := hlen
  refine ⟨rfl, rfl, ?_, ?_, ?_, ?_⟩
  · simp [renderedMessages, slice]
  · simp [renderedMessages, slice, onSnapshot]
  · intro i hi
    have hi2 : i < (docs.map buildMessage).length := by simpa using hi
    have h1 : (renderedMessages (onSnapshot s docs))[i]?
        = (docs.map buildMessage)[(docs.map buildMessage).length - 1 - i]? := by
      simp only [renderedMessages, slice, onSnapshot]
      exact List.getElem?_reverse hi2
    refine ⟨h1, ?_, ?_⟩
    · rw [h1, List.getElem?_map, List.length_map]
    · rw [h1, List.getElem?_map, List.length_map]
      have hj : docs.length - 1 - i < docs.length := by omega
      simp [List.getElem?_eq_getElem hj]
  · simp only [renderedMessages, slice]
    exact List.reverse_perm _

theorem rendered_is_reverse_of_window_witness :
    sampleDocs.length ≤ WINDOW_SIZE ∧
    renderedMessages (onSnapshot ChatRoomState.initial sampleDocs)
      = (onSnapshot ChatRoomState.initial sampleDocs).messages.reverse ∧
    (renderedMessages (onSnapshot ChatRoomState.initial sampleDocs))[0]?
      = (sampleDocs[sampleDocs.length - 1 - 0]?).map buildMessage :=
  ⟨by decide,
   (rendered_is_reverse_of_window ChatRoomState.initial sampleDocs (by decide)).2.1,
   ((rendered_is_reverse_of_window ChatRoomState.initial sampleDocs (by decide)).2.2.2.2.1 0
      (by decide)).2.1⟩

/-- C2: with a current user present, `ChatMessage` gives a message the class
`sent` exactly when its `uid` is the current user's uid, and `received` otherwise;
a message whose `uid` is `"u1"` is `sent` for the user `"u1"` and `received` for the
user `"u2"`. -/
theorem messageClass_sent_iff_own (m : JSObject) (u : User) :
    (messageClass (some u) m = some "sent" ↔ JSObject.get m "uid" = .str u.uid) ∧
    (messageClass (some u) m = some "received" ↔ JSObject.get m "uid" ≠ .str u.uid) ∧
    (JSObject.get m "uid" = .str "u1" →
      ∀ pa pb : Option String,
        messageClass (some { uid := "u1", photoURL := pa }) m = some "sent" ∧
        messageClass (some { uid := "u2", photoURL := pb }) m = some "received") := by
  have key : ∀ v : User, strictEquals (JSObject.get m "uid") (.str v.uid) = true
      ↔ JSObject.get m "uid" = .str v.uid := fun v => strictEquals_str _ _
  refine ⟨?_, ?_, ?_⟩
  · unfold messageClass
    cases hb : strictEquals (JSObject.get m "uid") (.str u.uid)
    · have hne : ¬ JSObject.get m "uid" = .str u.uid := fun e => by
        rw [(key u).mpr e] at hb; cases hb
      simp only [hb]
      simp [hne]
    · simp only [hb]
      simp [(key u).mp hb]
  · unfold messageClass
    cases hb : strictEquals (JSObject.get m "uid") (.str u.uid)
    · have hne : ¬ JSObject.get m "uid" = .str u.uid := fun e => by
        rw [(key u).mpr e] at hb; cases hb
      simp only [hb]
      simp [hne]
    · simp only [hb]
      simp [(key u).mp hb]
  · intro h pa pb
    simp [messageClass, h, strictEquals]

theorem messageClass_sent_iff_own_witness :
    JSObject.get (buildMessage ⟨"m100", [("text", .str "hi"), ("uid", .str "u1")]⟩) "uid"
      = .str "u1" ∧
    messageClass (some userA) (buildMessage ⟨"m100", [("text", .str "hi"), ("uid", .str "u1")]⟩)
      = some "sent" ∧
    messageClass (some userB) (buildMessage ⟨"m100", [("text", .str "hi"), ("uid", .str "u1")]⟩)
      = some "received" :=
  ⟨by decide,
   ((messageClass_sent_iff_own
      (buildMessage ⟨"m100", [("text", .str "hi"), ("uid", .str "u1")]⟩) userA).2.2
      (by decide) none (some "https://example.org/b.png")).1,
   ((messageClass_sent_iff_own
      (buildMessage ⟨"m100", [("text", .str "hi"), ("uid", .str "u1")]⟩) userA).2.2
      (by decide) none (some "https://example.org/b.png")).2⟩

/-- C3: with an empty `formValue` the submit button is disabled, and submitting
the form calls `addDoc` not at all, throws nothing, scrolls nothing and leaves
`formValue` and `messages` as they were. -/
theorem submit_empty_draft_does_nothing (currentUser : Option User) (outcome : AddDocResult)
    (s : ChatRoomState) (h : s.formValue = "") :
    submitDisabled s = true ∧
    (submit currentUser outcome s).addDocCalls = [] ∧
    (submit currentUser outcome s).state = s ∧
    (submit currentUser outcome s).state.formValue = "" ∧
    (submit currentUser outcome s).state.messages = s.messages ∧
    (submit currentUser outcome s).error = none ∧
    (submit currentUser outcome s).scrolled = false := by
  have hd : submitDisabled s = true := by simp [submitDisabled, truthy, h]
  simp [submit, hd, h]

theorem submit_empty_draft_does_nothing_witness :
    (onSnapshot ChatRoomState.initial sampleDocs).formValue = "" ∧
    (submit (some userA) (.ok "m4") (onSnapshot ChatRoomState.initial sampleDocs)).addDocCalls
      = [] ∧
    (submit (some userA) (.ok "m4") (onSnapshot ChatRoomState.initial sampleDocs)).state
      = onSnapshot ChatRoomState.initial sampleDocs :=
  ⟨rfl,
   (submit_empty_draft_does_nothing (some userA) (.ok "m4")
      (onSnapshot ChatRoomState.initial sampleDocs) rfl).2.1,
   (submit_empty_draft_does_nothing (some userA) (.ok "m4")
      (onSnapshot ChatRoomState.initial sampleDocs) rfl).2.2.1⟩

/-- C4: for a non-empty text `t` and a signed-in user, typing `t` and submitting
leaves `formValue` empty (and asks for the scroll) when `addDoc` succeeds; when
`addDoc` fails with `e` the submit fails with `e`, `formValue` is still `t`, the
state is the one after typing and no scroll is asked for. -/
theorem submit_clears_draft_only_on_success (s : ChatRoomState) (u : User) (t : String)
    (ht : t ≠ "") :
    (updateDraft s t).formValue = t ∧
    (∀ docId : String,
      (submit (some u) (.ok docId) (updateDraft s t)).state.formValue = "" ∧
      (submit (some u) (.ok docId) (updateDraft s t)).error = none ∧
      (submit (some u) (.ok docId) (updateDraft s t)).scrolled = true) ∧
    (∀ e : String,
      (submit (some u) (.error e) (updateDraft s t)).error = some e ∧
      (submit (some u) (.error e) (updateDraft s t)).state.formValue = t ∧
      (submit (some u) (.error e) (updateDraft s t)).state = updateDraft s t ∧
      (submit (some u) (.error e) (updateDraft s t)).scrolled = false) := by
  have hd : submitDisabled (updateDraft s t) = false := by
    simp [submitDisabled, updateDraft, truthy, ht]
  refine ⟨rfl, ?_, ?_⟩
  · intro docId
    simp [submit, hd, sendMessage]
  · intro e
    simp only [submit, hd]
    simp [sendMessage, updateDraft]

theorem submit_clears_draft_only_on_success_witness :
    "hello" ≠ "" ∧
    (submit (some userA) (.ok "m100") (updateDraft ChatRoomState.initial "hello")).state.formValue
      = "" ∧
    (submit (some userA) (.error "unavailable")
      (updateDraft ChatRoomState.initial "hello")).state.formValue = "hello" :=
  ⟨by decide,
   ((submit_clears_draft_only_on_success ChatRoomState.initial userA "hello" (by decide)).2.1
      "m100").1,
   ((submit_clears_draft_only_on_success ChatRoomState.initial userA "hello" (by decide)).2.2
      "unavailable").2.1⟩

/-- C5: after a non-empty sequence of snapshot deliveries the stored messages are
those built from the last delivery alone, whatever the state before and the
earlier deliveries (the same as delivering it to any other state), and so is the
rendered list; delivering a window twice gives the state, the stored messages and
the rendered list of delivering it once. -/
theorem last_delivery_wins (s s' : ChatRoomState) (deliveries : List (List Doc))
    (h : deliveries ≠ []) (w : List Doc) :
    (applyDeliveries s deliveries).messages = (deliveries.getLast h).map buildMessage ∧
    (applyDeliveries s deliveries).messages
      = (applyDeliveries s' [deliveries.getLast h]).messages ∧
    renderedMessages (applyDeliveries s deliveries)
      = renderedMessages (applyDeliveries s' [deliveries.getLast h]) ∧
    applyDeliveries s [w, w] = applyDeliveries s [w] ∧
    (applyDeliveries s [w, w]).messages = (applyDeliveries s [w]).messages ∧
    renderedMessages (applyDeliveries s [w, w]) = renderedMessages (applyDeliveries s [w]) := by
  have hsplit : deliveries = deliveries.dropLast ++ [deliveries.getLast h] :=
    (List.dropLast_append_getLast h).symm
  have hm : (applyDeliveries s deliveries).messages
      = (deliveries.getLast h).map buildMessage := by
    conv_lhs => rw [hsplit]
    rw [applyDeliveries_append]
    rfl
  refine ⟨hm, hm, ?_, rfl, rfl, rfl⟩
  simp only [renderedMessages, hm]
  rfl

theorem last_delivery_wins_witness :
    [sampleDocs, scenarioDocs] ≠ [] ∧
    (applyDeliveries (updateDraft ChatRoomState.initial "draft")
        [sampleDocs, scenarioDocs]).messages
      = scenarioDocs.map buildMessage :=
  ⟨by decide,
   (last_delivery_wins (updateDraft ChatRoomState.initial "draft") ChatRoomState.initial
      [sampleDocs, scenarioDocs] (by decide) sampleDocs).1⟩

/-- C6: with a non-empty `formValue` `t` and a signed-in user with uid `uid` and
photo `photo`, a submit calls `addDoc` exactly once, on the collection `messages`,
with the record of the four fields `text = t`, `createdAt` = the server timestamp
sentinel, `uid` and `photoURL` of the user, whether or not the append succeeds. -/
theorem submit_appends_one_record (s : ChatRoomState) (uid : String) (photo : Option String)
    (outcome : AddDocResult) (t : String) (ht : t ≠ "") (hs : s.formValue = t) :
    (submit (some { uid := uid, photoURL := photo }) outcome s).addDocCalls
      = [("messages",
          [("text", .str t), ("createdAt", .serverTimestamp), ("uid", .str uid),
           ("photoURL", match photo with
                        | some p => JSValue.str p
                        | none => JSValue.null)])] ∧
    (∀ record ∈ (submit (some { uid := uid, photoURL := photo }) outcome s).addDocCalls,
      JSObject.keys record.2 = ["text", "createdAt", "uid", "photoURL"] ∧
      JSObject.get record.2 "text" = .str t ∧
      JSObject.get record.2 "uid" = .str uid ∧
      JSObject.get record.2 "createdAt" = .serverTimestamp ∧
      (∀ p, photo = some p → JSObject.get record.2 "photoURL" = .str p)) := by
  have hd : submitDisabled s = false := by
    simp [submitDisabled, truthy, hs, ht]
  have hcalls : (submit (some { uid := uid, photoURL := photo }) outcome s).addDocCalls
      = [("messages",
          [("text", .str t), ("createdAt", .serverTimestamp), ("uid", .str uid),
           ("photoURL", match photo with
                        | some p => JSValue.str p
                        | none => JSValue.null)])] := by
    cases outcome <;> cases photo <;>
      simp [submit, hd, sendMessage, messageRecord, messagesRef, User.photoURLValue, hs]
  refine ⟨hcalls, ?_⟩
  intro record hrec
  rw [hcalls, List.mem_singleton] at hrec
  subst hrec
  refine ⟨rfl, ?_, ?_, ?_, ?_⟩
  · simp [JSObject.get, List.lookup]
  · simp [JSObject.get, List.lookup]
  · simp [JSObject.get, List.lookup]
  · intro p hp
    subst hp
    simp [JSObject.get, List.lookup]

theorem submit_appends_one_record_witness :
    "hi" ≠ "" ∧ (updateDraft ChatRoomState.initial "hi").formValue = "hi" ∧
    (submit (some { uid := "u1", photoURL := some "https://example.org/a.png" })
        (.ok "m100") (updateDraft ChatRoomState.initial "hi")).addDocCalls
      = [("messages",
          [("text", .str "hi"), ("createdAt", .serverTimestamp), ("uid", .str "u1"),
           ("photoURL", .str "https://example.org/a.png")])] :=
  ⟨by decide, rfl,
   (submit_appends_one_record (updateDraft ChatRoomState.initial "hi") "u1"
      (some "https://example.org/a.png") (.ok "m100") "hi" (by decide) rfl).1⟩

/-- C7: the window of `ChatRoom` starts empty; the query asks for the first
`WINDOW_SIZE = 25` documents by `createdAt` descending; after any sequence of
events (log changes delivered through the query, typing, submits) `messages` holds
at most 25 messages; from a log of 26 documents with distinct `createdAt` keys the
query delivers 25 documents and never the one with the smallest key; storing a
delivered window and reversing it for rendering keep its length. -/
theorem window_never_exceeds_window_size (key : String → Doc → Nat)
    (currentUser : Option User) :
    ChatRoomState.initial.messages = [] ∧
    (q.orderField = "createdAt" ∧ q.direction = Direction.desc ∧ q.limit = WINDOW_SIZE ∧
      WINDOW_SIZE = 25) ∧
    (∀ events : List Event, (run key currentUser events).messages.length ≤ WINDOW_SIZE) ∧
    (∀ log : List Doc, (runQuery key q log).length ≤ WINDOW_SIZE) ∧
    (∀ (log : List Doc) (d : Doc), log.length = 26 →
      (log.map (key "createdAt")).Nodup →
      (∀ e ∈ log, key "createdAt" d ≤ key "createdAt" e) →
      (runQuery key q log).length = 25 ∧ d ∉ runQuery key q log) ∧
    (∀ (s : ChatRoomState) (docs : List Doc),
      (onSnapshot s docs).messages.length = docs.length ∧
      (renderedMessages (onSnapshot s docs)).length = docs.length) := by
  refine ⟨rfl, ⟨rfl, rfl, rfl, rfl⟩, ?_, ?_, ?_, ?_⟩
  · intro events
    exact foldl_step_messages_length key currentUser events ChatRoomState.initial
      (by simp [ChatRoomState.initial])
  · intro log
    exact runQuery_length_le key q log
  · intro log d hlen hnd hold
    refine ⟨?_, ?_⟩
    · have hperm : (log.insertionSort (q.direction.before (key q.orderField))).length
          = log.length := (List.perm_insertionSort _ log).length_eq
      simp only [runQuery, List.length_take, hperm, hlen]
      rfl
    · exact runQuery_desc_drops_oldest key q log d rfl hlen hnd hold
  · intro s docs
    simp [onSnapshot, renderedMessages, slice]

theorem window_never_exceeds_window_size_witness :
    sampleLog.length = 26 ∧
    (sampleLog.map (sampleKey "createdAt")).Nodup ∧
    (∀ e ∈ sampleLog, sampleKey "createdAt" sampleOldest ≤ sampleKey "createdAt" e) ∧
    sampleOldest ∈ sampleLog ∧
    (runQuery sampleKey q sampleLog).length = 25 ∧
    sampleOldest ∉ runQuery sampleKey q sampleLog :=
  ⟨by decide, by decide, by decide, by decide,
   ((window_never_exceeds_window_size sampleKey (some userA)).2.2.2.2.1 sampleLog sampleOldest
      (by decide) (by decide) (by decide)).1,
   ((window_never_exceeds_window_size sampleKey (some userA)).2.2.2.2.1 sampleLog sampleOldest
      (by decide) (by decide) (by decide)).2⟩

/-- C8 fails as stated: a message whose `photoURL` is the empty string is shown
with the default avatar, not with its `photoURL`. -/
theorem avatarSrc_empty_photoURL_shows_default :
    ¬ (∀ (m : JSObject) (p : String),
        JSObject.get m "photoURL" = .str p → avatarSrc m = .str p) := by
  intro h
  have h1 := h [("text", .str "hi"), ("photoURL", .str "")] "" (by decide)
  revert h1
  decide

/-- C8, amended: the avatar shown is the `photoURL` of the message whenever that is
a non-empty string, and the default avatar when the message has no `photoURL`, or
has `null` or the empty string there. -/
theorem avatarSrc_photoURL_or_default (m : JSObject) :
    (∀ p : String, p ≠ "" → JSObject.get m "photoURL" = .str p → avatarSrc m = .str p) ∧
    (JSObject.get m "photoURL" = .undefined ∨ JSObject.get m "photoURL" = .null ∨
        JSObject.get m "photoURL" = .str "" →
      avatarSrc m = .str "https://api.adorable.io/avatars/23/abott@adorable.png") := by
  refine ⟨?_, ?_⟩
  · intro p hp h
    simp [avatarSrc, jsOr, h, truthy, hp]
  · intro h
    rcases h with h | h | h <;> simp [avatarSrc, jsOr, h, truthy, defaultAvatar]

theorem avatarSrc_photoURL_or_default_witness :
    "https://example.org/b.png" ≠ "" ∧
    JSObject.get [("text", .str "hi"), ("photoURL", .str "https://example.org/b.png")] "photoURL"
      = .str "https://example.org/b.png" ∧
    avatarSrc [("text", .str "hi"), ("photoURL", .str "https://example.org/b.png")]
      = .str "https://example.org/b.png" ∧
    avatarSrc [("text", .str "hi")]
      = .str "https://api.adorable.io/avatars/23/abott@adorable.png" :=
  ⟨by decide, by decide,
   (avatarSrc_photoURL_or_default
      [("text", .str "hi"), ("photoURL", .str "https://example.org/b.png")]).1
      "https://example.org/b.png" (by decide) (by decide),
   (avatarSrc_photoURL_or_default [("text", .str "hi")]).2 (Or.inl (by decide))⟩

/-- C9: whatever the authenticated user and the selected profile user, present or
absent, the section of `App` shows exactly one of the profile, chat and sign-in
views; the profile view exactly when a user is selected, the chat view exactly
when none is selected and a user is authenticated, the sign-in view exactly when
neither is present. So the chat view is shown only with an authenticated user,
for whom classifying a message succeeds. -/
theorem appSection_shows_one_view (user : Option User) (selectedUser : Option JSObject) :
    (((appSection user selectedUser).isProfile = true ∧
        (appSection user selectedUser).isChatRoom = false ∧
        (appSection user selectedUser).isSignIn = false) ∨
      ((appSection user selectedUser).isProfile = false ∧
        (appSection user selectedUser).isChatRoom = true ∧
        (appSection user selectedUser).isSignIn = false) ∨
      ((appSection user selectedUser).isProfile = false ∧
        (appSection user selectedUser).isChatRoom = false ∧
        (appSection user selectedUser).isSignIn = true)) ∧
    ((appSection user selectedUser).isProfile = true ↔ selectedUser.isSome = true) ∧
    (appSection user selectedUser = View.chatRoom ↔
      selectedUser = none ∧ user.isSome = true) ∧
    (appSection user selectedUser = View.signIn ↔ selectedUser = none ∧ user = none) ∧
    (appSection user selectedUser = View.chatRoom →
      ∃ u, user = some u ∧ ∀ m : JSObject, (messageClass user m).isSome = true) ∧
    appSection none none = View.signIn := by
  cases user <;> cases selectedUser <;>
    simp [appSection, View.isProfile, View.isChatRoom, View.isSignIn, messageClass]
  intro m
  split <;> rfl

theorem appSection_shows_one_view_witness :
    appSection (some userA) none = View.chatRoom ∧
    ∃ u, some userA = some u ∧ ∀ m : JSObject, (messageClass (some userA) m).isSome = true :=
  ⟨by decide,
   (appSection_shows_one_view (some userA) none).2.2.2.2.1 (by decide)⟩

/-- C10 on a document whose data has a field `id`: the message built by the
snapshot listener takes the `id` of the data, not the id the log gave the
document. -/
theorem buildMessage_data_id_replaces_doc_id :
    JSObject.get (buildMessage { id := "m100", data := [("id", .str "x"), ("text", .str "hi")] })
      "id" = .str "x" ∧
    JSObject.get (buildMessage { id := "m100", data := [("id", .str "x"), ("text", .str "hi")] })
      "id" ≠ .str "m100" ∧
    buildMessage { id := "m100", data := [("id", .str "x"), ("text", .str "hi")] }
      = [("id", .str "x"), ("text", .str "hi")] := by
  decide

end TalkerApp
